import Mathlib

/-!
Verification development for the open-agent MPC policy
(`zoo/policies/open-agent/open_agent/policy.py`).

The policy builds a nonlinear model-predictive-control problem over a
kinematic bicycle model and, per tick, encodes the observation into a flat
parameter vector, calls an external solver, and decodes the returned control
sequence into a trajectory.  The definitions below are a shallow embedding
of that code over the real numbers: casadi symbolic scalars become `ℝ`,
`cs.fmin` / `cs.fmax` become `min` / `max`, Python lists become `List`,
and Python operations that can raise (indexing `wps[-1]` on an empty list)
become `Option`-valued.
-/

noncomputable section

/-- Embeds `angle_error` (policy.py line 23-24):
`cs.fmin((a - b) ** 2.0, (a - (b + math.pi * 2.0)) ** 2.0)`. -/
def angle_error (a b : ℝ) : ℝ :=
  min ((a - b) ^ 2) ((a - (b + Real.pi * 2)) ^ 2)

/-- Embeds the dataclass `U` (policy.py line 200-203): one control input. -/
structure U where
  accel : ℝ
  yaw_rate : ℝ

/-- Embeds the dataclass `VehicleModel` (policy.py line 148-162): the
kinematic bicycle state. -/
structure VehicleModel where
  x : ℝ
  y : ℝ
  theta : ℝ
  speed : ℝ

/-- Embeds `VehicleModel.LENGTH = 4.0`. -/
def VehicleModel.LENGTH : ℝ := 4

/-- Embeds `VehicleModel.MAX_SPEED = 14.0`. -/
def VehicleModel.MAX_SPEED : ℝ := 14

/-- Embeds `VehicleModel.MAX_ACCEL = 5.0`. -/
def VehicleModel.MAX_ACCEL : ℝ := 5

/-- Embeds `VehicleModel.step` (policy.py line 168-173).  The Python method
mutates the fields in order; `x`, `y`, `theta` and the pre-clamp speed all
read the original `speed` and `theta`, so the functional translation uses
the original fields on every right-hand side. -/
def VehicleModel.step (v : VehicleModel) (u : U) (ts : ℝ) : VehicleModel where
  x := v.x + ts * v.speed * Real.cos v.theta
  y := v.y + ts * v.speed * Real.sin v.theta
  theta := v.theta + ts * v.speed / VehicleModel.LENGTH * u.yaw_rate
  speed := min (max 0 (v.speed + ts * VehicleModel.MAX_ACCEL * u.accel)) VehicleModel.MAX_SPEED

/-- Iterated `VehicleModel.step` with the zero control
`U(accel=0, yaw_rate=0)`, as applied to social vehicles in
`build_problem` (policy.py line 385-387). -/
def iterZero (v : VehicleModel) (ts : ℝ) : ℕ → VehicleModel
  | 0 => v
  | k + 1 => (iterZero v ts k).step ⟨0, 0⟩ ts

/-- Embeds the dataclass `Gain` (policy.py line 27-37): the 8 cost gains. -/
structure Gain where
  theta : ℝ
  position : ℝ
  obstacle : ℝ
  u_accel : ℝ
  u_yaw_rate : ℝ
  terminal : ℝ
  impatience : ℝ
  speed : ℝ

/-- Embeds `Gain.__iter__` (policy.py line 39-51): the fixed iteration order
of the 8 gains, used when the parameter vector is assembled. -/
def Gain.toList (g : Gain) : List ℝ :=
  [g.theta, g.position, g.obstacle, g.u_accel, g.u_yaw_rate,
   g.terminal, g.impatience, g.speed]

/-- Embeds the dataclass `XRef` (policy.py line 176-181): a reference pose. -/
structure XRef where
  x : ℝ
  y : ℝ
  theta : ℝ

/-- Embeds `XRef.weighted_distance_to` (policy.py line 183-186). -/
def XRef.weighted_distance_to (s other : XRef) (gain : Gain) : ℝ :=
  gain.position * ((other.x - s.x) ^ 2 + (other.y - s.y) ^ 2) +
    gain.theta * angle_error s.theta other.theta

/-- Embeds the dataclass `Number` (policy.py line 142-145). -/
structure Number where
  value : ℝ

/-- Embeds `Gain.DOF = 8`. -/
def Gain.DOF : ℕ := 8

/-- Embeds `VehicleModel.DOF = 4`. -/
def VehicleModel.DOF : ℕ := 4

/-- Embeds `XRef.DOF = 3`. -/
def XRef.DOF : ℕ := 3

/-- Embeds `Number.DOF = 1`. -/
def Number.DOF : ℕ := 1

/-- Embeds `z0_schema` in `build_problem` (policy.py line 340-347), as the
list of `(count, feature DOF)` pairs. -/
def z0Schema (SV_N WP_N : ℕ) : List (ℕ × ℕ) :=
  [(1, Gain.DOF), (1, VehicleModel.DOF), (SV_N, VehicleModel.DOF),
   (WP_N, XRef.DOF), (1, Number.DOF), (1, Number.DOF)]

/-- Embeds `z0_dimensions = sum(n * feature.DOF for n, feature in z0_schema)`
(policy.py line 349). -/
def z0Dimensions (SV_N WP_N : ℕ) : ℕ :=
  ((z0Schema SV_N WP_N).map (fun p => p.1 * p.2)).sum

/-- The rollout step indices of the cost loop `for t in range(self.N)` in
`build_problem` (policy.py line 376). -/
def buildProblemStepIndices (N : ℕ) : List ℕ := List.range N

/-- Embeds the speed-shaping summand added at rollout step `t`
(policy.py line 383): `gain.speed * target_speed.value / t`. -/
def speedShapingTerm (gain_speed target_speed : ℝ) (t : ℕ) : ℝ :=
  gain_speed * target_speed / (t : ℝ)

/-- The list of speed-shaping summands the cost loop adds, one per rollout
step index. -/
def speedShapingTerms (gain_speed target_speed : ℝ) (N : ℕ) : List ℝ :=
  (buildProblemStepIndices N).map (speedShapingTerm gain_speed target_speed)

/-- A waypoint as `act` consumes it: position, heading, speed limit. -/
structure Waypoint where
  pos : ℝ × ℝ
  heading : ℝ
  speed_limit : ℝ

/-- The ego observation fields `act` reads: position, heading, speed. -/
structure EgoObs where
  pos : ℝ × ℝ
  heading : ℝ
  speed : ℝ

/-- A neighborhood-vehicle observation: position, heading, speed. -/
structure SocialVehicle where
  pos : ℝ × ℝ
  heading : ℝ
  speed : ℝ

/-- Default waypoint used only to state total characterizations. -/
def defaultWp : Waypoint := ⟨(0, 0), 0, 0⟩

/-- Embeds the waypoint windowing of `act` (policy.py line 440-447), with
`wps_to_skip` fixed at `0` as in the source.  For nonempty `wps` the slice
`wps[min(0, len(wps) - 1) : WP_N]` is `wps.take WP_N`; for empty `wps` the
slice start is `-1` and a Python slice of an empty list is again `[]`, so
`wps.take WP_N` is faithful there too.  The following `wps[-1]` raises
`IndexError` on an empty window; that access is the `Option`. -/
def encodeRefWindow (wps : List Waypoint) (WP_N : ℕ) : Option (List Waypoint) :=
  match (wps.take WP_N).getLast? with
  | none => none
  | some lastWp => some (wps.take WP_N ++ List.replicate (WP_N - (wps.take WP_N).length) lastWp)

/-- Total closed form of the waypoint window for nonempty input: the taken
prefix followed by its last point repeated.  (`getLastD`'s default is never
reached when the window is nonempty.) -/
def refWindowTotal (wps : List Waypoint) (WP_N : ℕ) : List Waypoint :=
  wps.take WP_N ++
    List.replicate (WP_N - (wps.take WP_N).length) ((wps.take WP_N).getLastD defaultWp)

/-- Embeds `wps_params` (policy.py line 448-452): each windowed waypoint
contributes `[x, y, heading + π/2]`. -/
def wpsParams (wps : List Waypoint) : List ℝ :=
  wps.flatMap (fun wp => [wp.pos.1, wp.pos.2, wp.heading + Real.pi * 0.5])

/-- Embeds `np.linalg.norm(sv.position - ego.position)` (policy.py
line 467): the Euclidean distance from the ego position. -/
def svDist (egoPos : ℝ × ℝ) (sv : SocialVehicle) : ℝ :=
  Real.sqrt ((sv.pos.1 - egoPos.1) ^ 2 + (sv.pos.2 - egoPos.2) ^ 2)

/-- The Boolean comparison `sorted` applies under the distance key. -/
def svLe (egoPos : ℝ × ℝ) (a b : SocialVehicle) : Bool :=
  decide (svDist egoPos a ≤ svDist egoPos b)

/-- Embeds `sorted(obs.neighborhood_vehicle_states, key=distance-to-ego)`
(policy.py line 465-468); Python's `sorted` is a stable merge sort. -/
def sortByDist (egoPos : ℝ × ℝ) (svs : List SocialVehicle) : List SocialVehicle :=
  svs.mergeSort (svLe egoPos)

/-- Embeds the nearest-neighbor selection `sorted(...)[: self.SV_N]`
(policy.py line 465-468). -/
def selectedSVs (SV_N : ℕ) (egoPos : ℝ × ℝ) (neighbors : List SocialVehicle) :
    List SocialVehicle :=
  (sortByDist egoPos neighbors).take SV_N

/-- Embeds the padding `social_vehicles += [social_vehicles[-1]] * (SV_N -
len(social_vehicles))` (policy.py line 470-473). -/
def paddedSVs (SV_N : ℕ) (egoPos : ℝ × ℝ) (neighbors : List SocialVehicle) :
    List SocialVehicle :=
  selectedSVs SV_N egoPos neighbors ++
    List.replicate (SV_N - (selectedSVs SV_N egoPos neighbors).length)
      ((selectedSVs SV_N egoPos neighbors).getLastD ⟨(0, 0), 0, 0⟩)

/-- The four parameters a social vehicle contributes (policy.py
line 474-483): `[x, y, heading + π/2, speed]`. -/
def svParamsOf (sv : SocialVehicle) : List ℝ :=
  [sv.pos.1, sv.pos.2, sv.heading + Real.pi * 0.5, sv.speed]

/-- Embeds `sv_params` (policy.py line 453-483), the three branches in
source order: no block when `SV_N = 0`; `SV_N` far-away placeholders
`[ego.x + 100000, ego.y + 100000, 0, 0]` when there are no neighbors; else
the `SV_N` nearest neighbors padded by repetition, each contributing
`[x, y, heading + π/2, speed]`.  In the third branch `SV_N ≠ 0` and
`neighbors ≠ []` make the selected list nonempty, so `getLastD` never
falls back to its default. -/
def encodeSV (SV_N : ℕ) (egoPos : ℝ × ℝ) (neighbors : List SocialVehicle) : List ℝ :=
  if SV_N = 0 then []
  else if neighbors.length = 0 then
    (List.replicate SV_N [egoPos.1 + 100000, egoPos.2 + 100000, (0:ℝ), 0]).flatten
  else (paddedSVs SV_N egoPos neighbors).flatMap svParamsOf

/-- Embeds `ego_params` (policy.py line 485-490):
`[x, y, heading + π/2, speed]`. -/
def egoParams (ego : EgoObs) : List ℝ :=
  [ego.pos.1, ego.pos.2, ego.heading + Real.pi * 0.5, ego.speed]

/-- Embeds the parameter-vector assembly `planner_params` in `act`
(policy.py line 493-499): gains, ego, social vehicles, waypoints, then
`[impatience, wps[0].speed_limit]` where `wps` is the windowed waypoint
list.  `none` exactly when the waypoint windowing raised (an `encodeRefWindow`
success is always a nonempty window, so the wildcard arm only absorbs
`none`). -/
def plannerParams (gain : Gain) (SV_N WP_N : ℕ) (ego : EgoObs)
    (neighbors : List SocialVehicle) (path : List Waypoint) (impatience : ℕ) :
    Option (List ℝ) :=
  match encodeRefWindow path WP_N with
  | some (w0 :: ws) =>
      some (gain.toList ++ egoParams ego ++ encodeSV SV_N ego.pos neighbors ++
        wpsParams (w0 :: ws) ++ [(impatience : ℝ), w0.speed_limit])
  | _ => none

/-- The host-loop state `act` carries across ticks: the warm start
`prev_solution`, `last_position`, `steps_without_moving`, and a counter of
how many times the solver session has been (re)initialized, modelling the
stop/start in `reinit_planner`. -/
structure PolicyState where
  prevSolution : Option (List ℝ)
  lastPosition : Option (ℝ × ℝ)
  stepsWithoutMoving : ℕ
  plannerEpoch : ℕ

/-- The solver's reply to `self.mng.call` (policy.py line 501): either a
solution vector or a diagnostic code. -/
inductive SolveResp where
  | ok (solution : List ℝ)
  | err (code : ℕ)

/-- Euclidean distance between two planar positions, as
`np.linalg.norm(ego.position - self.last_position)` (policy.py line 434). -/
def planarDist (p q : ℝ × ℝ) : ℝ :=
  Real.sqrt ((p.1 - q.1) ^ 2 + (p.2 - q.2) ^ 2)

/-- Embeds the impatience bookkeeping at the top of `act` (policy.py
line 432-438): increment while displacement stays below `1e-1`, else reset. -/
def updateImpatience (st : PolicyState) (egoPos : ℝ × ℝ) : ℕ :=
  match st.lastPosition with
  | some lp => if planarDist egoPos lp < 0.1 then st.stepsWithoutMoving + 1 else 0
  | none => 0

/-- Embeds `reinit_planner` (policy.py line 422-425): `prev_solution = None`,
then stop and restart the solver process (`init_planner` clears
`prev_solution` again).  The process restart is modelled by bumping
`plannerEpoch`. -/
def reinitPlanner (st : PolicyState) : PolicyState :=
  { st with prevSolution := none, plannerEpoch := st.plannerEpoch + 1 }

/-- The warm start `act` hands to the solver (policy.py line 501):
`initial_guess = self.prev_solution`. -/
def solveInitialGuess (st : PolicyState) : Option (List ℝ) :=
  st.prevSolution

/-- Every second element of a list, starting at the head: `u_star[::2]`. -/
def stride2 : List ℝ → List ℝ
  | [] => []
  | [a] => [a]
  | a :: _ :: rest => a :: stride2 rest

/-- Embeds `zip(u_star[::2], u_star[1::2])` in `act` (policy.py line 511):
the decoded control pairs. -/
def actPairs (u : List ℝ) : List U :=
  List.zipWith (fun a y => U.mk a y) (stride2 u) (stride2 u.tail)

/-- One sequential step-and-record loop: the state after each
`VehicleModel.step`, shared shape of the cost rollout (policy.py
line 376-378) and the trajectory decoding (policy.py line 511-516). -/
def rolloutStates (v : VehicleModel) (us : List U) (ts : ℝ) : List VehicleModel :=
  match us with
  | [] => []
  | u :: rest =>
      let v' := v.step u ts
      v' :: rolloutStates v' rest ts

/-- Embeds `UTrajectory.__getitem__` applied along `range(N)`
(policy.py line 215-217 and 376): `u_traj[t] = U(u[2*t], u[2*t+1])`. -/
def buildPairs (u : List ℝ) (N : ℕ) : List U :=
  (List.range N).map (fun t => U.mk (u.getD (2 * t) 0) (u.getD (2 * t + 1) 0))

/-- The ego states the symbolic cost rollout of `build_problem` steps
through (policy.py line 376-378). -/
def buildRolloutStates (ego : VehicleModel) (u : List ℝ) (N : ℕ) (ts : ℝ) :
    List VehicleModel :=
  rolloutStates ego (buildPairs u N) ts

/-- The ego states the numeric decoding loop of `act` steps through
(policy.py line 506-516). -/
def decodeStates (ego : VehicleModel) (u_star : List ℝ) (ts : ℝ) : List VehicleModel :=
  rolloutStates ego (actPairs u_star) ts

/-- Embeds the decoded trajectory `[xs, ys, headings, speeds]` of `act`
(policy.py line 506-518); headings are reported as `theta - π/2`. -/
def decodeTraj (ego : VehicleModel) (u_star : List ℝ) (ts : ℝ) :
    List ℝ × List ℝ × List ℝ × List ℝ :=
  let sts := decodeStates ego u_star ts
  (sts.map (fun s => s.x), sts.map (fun s => s.y),
   sts.map (fun s => s.theta - Real.pi * 0.5), sts.map (fun s => s.speed))

/-- Embeds the response handling of one `act` tick (policy.py
line 430-530), the solver's reply supplied as an oracle: on success the
solution is stored as the next warm start and decoded into a trajectory;
on failure the session is reinitialized and no trajectory is emitted.
`last_position` is recorded in both branches. -/
def actUpdate (st : PolicyState) (ego : EgoObs) (resp : SolveResp) (ts : ℝ) :
    PolicyState × Option (List ℝ × List ℝ × List ℝ × List ℝ) :=
  let steps := updateImpatience st ego.pos
  match resp with
  | .ok u_star =>
      ({ prevSolution := some u_star, lastPosition := some ego.pos,
         stepsWithoutMoving := steps, plannerEpoch := st.plannerEpoch },
       some (decodeTraj ⟨ego.pos.1, ego.pos.2, ego.heading + Real.pi * 0.5, ego.speed⟩ u_star ts))
  | .err _ =>
      (reinitPlanner { st with lastPosition := some ego.pos, stepsWithoutMoving := steps },
       none)

/-- C1 counterexample: `angle_error` is not symmetric.  At `a = 4`, `b = 0`
the `+2π` branch fires on one side only: `angle_error 4 0 = (4 - 2π)² < 16`
while `angle_error 0 4 = 16`. -/
theorem C1_counterexample : angle_error 4 0 ≠ angle_error 0 4 := by
  have hπ1 : (3:ℝ) < Real.pi := Real.pi_gt_three
  have hπ2 : Real.pi < 3.15 := Real.pi_lt_d2
  unfold angle_error
  rw [min_eq_right (by nlinarith), min_eq_left (by nlinarith)]
  exact ne_of_lt (by nlinarith)

/-- C1 (amended): `angle_error a a = 0` for every heading `a`, and
`angle_error` is symmetric whenever the two headings are within `π` of each
other, `|a - b| ≤ π` (it is not symmetric in general, because the formula
only corrects the `+2π` branch). -/
theorem C1_theorem :
    (∀ a : ℝ, angle_error a a = 0) ∧
    (∀ a b : ℝ, |a - b| ≤ Real.pi → angle_error a b = angle_error b a) := by
  have hπ : (0:ℝ) < Real.pi := Real.pi_pos
  constructor
  · intro a
    unfold angle_error
    rw [sub_self]
    rw [min_eq_left (by nlinarith [sq_nonneg (a - (a + Real.pi * 2))])]
    norm_num
  · intro a b h
    obtain ⟨hlo, hhi⟩ := abs_le.mp h
    unfold angle_error
    rw [min_eq_left (by nlinarith), min_eq_left (by nlinarith)]
    ring

/-- C1 witness: the amended symmetry at the concrete pair `a = 1`, `b = 0`,
whose gap `1` is within `π`. -/
theorem C1_witness : |(1:ℝ) - 0| ≤ Real.pi ∧ angle_error 1 0 = angle_error 0 1 := by
  have h : |(1:ℝ) - 0| ≤ Real.pi := by
    rw [abs_of_nonneg (by norm_num)]
    nlinarith [Real.pi_gt_three]
  exact ⟨h, C1_theorem.2 1 0 h⟩

/-- C4: after any single `VehicleModel.step` — any state, any control
magnitudes, any timestep — the resulting speed lies in
`[0, MAX_SPEED] = [0, 14]`, because the update clamps with
`fmin(fmax(0, speed), MAX_SPEED)`. -/
theorem C4_theorem (v : VehicleModel) (u : U) (ts : ℝ) :
    0 ≤ (v.step u ts).speed ∧ (v.step u ts).speed ≤ VehicleModel.MAX_SPEED ∧
    VehicleModel.MAX_SPEED = 14 := by
  refine ⟨?_, ?_, rfl⟩
  · exact le_min (le_max_left 0 _) (by norm_num [VehicleModel.MAX_SPEED])
  · exact min_le_right _ _

/-- C5: starting from any state whose speed is already in `[0, MAX_SPEED]`,
`k` steps under the zero control leave `theta` and `speed` unchanged and
advance the position by `k * ts * speed` along the initial heading. -/
theorem C5_theorem (v : VehicleModel) (ts : ℝ) (k : ℕ)
    (h0 : 0 ≤ v.speed) (h1 : v.speed ≤ VehicleModel.MAX_SPEED) :
    (iterZero v ts k).theta = v.theta ∧ (iterZero v ts k).speed = v.speed ∧
    (iterZero v ts k).x = v.x + k * ts * v.speed * Real.cos v.theta ∧
    (iterZero v ts k).y = v.y + k * ts * v.speed * Real.sin v.theta := by
  induction k with
  | zero => simp [iterZero]
  | succ n ih =>
    obtain ⟨hθ, hs, hx, hy⟩ := ih
    have hstep : iterZero v ts (n + 1) = (iterZero v ts n).step ⟨0, 0⟩ ts := rfl
    refine ⟨?_, ?_, ?_, ?_⟩
    · rw [hstep]
      simp only [VehicleModel.step, hθ, hs]
      ring
    · rw [hstep]
      simp only [VehicleModel.step, hs]
      rw [show v.speed + ts * VehicleModel.MAX_ACCEL * (0:ℝ) = v.speed by ring]
      rw [max_eq_right h0, min_eq_left h1]
    · rw [hstep]
      simp only [VehicleModel.step, hθ, hs, hx]
      push_cast
      ring
    · rw [hstep]
      simp only [VehicleModel.step, hθ, hs, hy]
      push_cast
      ring

/-- C5 witness: two zero-control steps from `(0, 0, 0, 1)` with `ts = 1`
keep heading `0` and speed `1` and move `x` forward by `2`. -/
theorem C5_witness :
    (iterZero ⟨0, 0, 0, 1⟩ 1 2).theta = 0 ∧ (iterZero ⟨0, 0, 0, 1⟩ 1 2).speed = 1 ∧
    (iterZero ⟨0, 0, 0, 1⟩ 1 2).x = 2 ∧ (iterZero ⟨0, 0, 0, 1⟩ 1 2).y = 0 := by
  have h := C5_theorem ⟨0, 0, 0, 1⟩ 1 2 (by norm_num)
    (by norm_num [VehicleModel.MAX_SPEED])
  simpa using h

/-- Helper: a `flatMap` whose blocks all have length `k` has length
`l.length * k`. -/
theorem length_flatMap_const {α : Type} (l : List α) (f : α → List ℝ) (k : ℕ)
    (h : ∀ a, (f a).length = k) : (l.flatMap f).length = l.length * k := by
  induction l with
  | nil => simp
  | cons a t ih =>
      rw [List.flatMap_cons, List.length_append, ih, h, List.length_cons]
      ring

/-- Helper: flattening `n` copies of a block of length `m` gives `n * m`. -/
theorem length_flatten_replicate (n : ℕ) (l : List ℝ) :
    ((List.replicate n l).flatten).length = n * l.length := by
  induction n with
  | zero => simp
  | succ m ih =>
      rw [List.replicate_succ, List.flatten_cons, List.length_append, ih]
      ring

/-- Helper: the padded social-vehicle list always has exactly `SV_N`
entries. -/
theorem paddedSVs_length (SV_N : ℕ) (egoPos : ℝ × ℝ)
    (neighbors : List SocialVehicle) :
    (paddedSVs SV_N egoPos neighbors).length = SV_N := by
  simp only [paddedSVs, selectedSVs, sortByDist, List.length_append,
    List.length_replicate, List.length_take, List.length_mergeSort]
  omega

/-- Helper: the social-vehicle block always flattens to `4 * SV_N`
numbers. -/
theorem encodeSV_length (SV_N : ℕ) (egoPos : ℝ × ℝ)
    (neighbors : List SocialVehicle) :
    (encodeSV SV_N egoPos neighbors).length = 4 * SV_N := by
  unfold encodeSV
  by_cases h0 : SV_N = 0
  · simp [h0]
  · rw [if_neg h0]
    by_cases h1 : neighbors.length = 0
    · rw [if_pos h1, length_flatten_replicate]
      simp only [List.length_cons, List.length_nil]
      ring
    · rw [if_neg h1, length_flatMap_const _ svParamsOf 4 (fun a => rfl),
        paddedSVs_length]
      ring

/-- Helper: the waypoint block flattens to three numbers per waypoint. -/
theorem wpsParams_length (wps : List Waypoint) :
    (wpsParams wps).length = wps.length * 3 :=
  length_flatMap_const wps _ 3 (fun a => rfl)

/-- Helper: the schema dimension in closed form. -/
theorem z0Dimensions_eq (SV_N WP_N : ℕ) :
    z0Dimensions SV_N WP_N = 8 + 4 + 4 * SV_N + 3 * WP_N + 2 := by
  simp [z0Dimensions, z0Schema, Gain.DOF, VehicleModel.DOF, XRef.DOF, Number.DOF]
  ring

/-- Helper: on a nonempty path with `WP_N ≥ 1` the waypoint windowing
succeeds and returns the total closed form. -/
theorem encodeRefWindow_eq (p : Waypoint) (rest : List Waypoint) (WP_N : ℕ)
    (h : 1 ≤ WP_N) :
    encodeRefWindow (p :: rest) WP_N = some (refWindowTotal (p :: rest) WP_N) := by
  obtain ⟨m, rfl⟩ : ∃ m, WP_N = m + 1 := ⟨WP_N - 1, by omega⟩
  cases hL : ((p :: rest).take (m + 1)).getLast? with
  | none =>
      exact absurd (List.getLast?_eq_none_iff.mp hL) (by simp)
  | some a =>
      have ha : ((p :: rest).take (m + 1)).getLastD defaultWp = a := by
        rw [List.getLastD_eq_getLast?, hL]
        rfl
      unfold encodeRefWindow refWindowTotal
      rw [hL, ha]

/-- Helper: the waypoint window always has length `WP_N`. -/
theorem refWindowTotal_length (wps : List Waypoint) (WP_N : ℕ) :
    (refWindowTotal wps WP_N).length = WP_N := by
  simp only [refWindowTotal, List.length_append, List.length_replicate,
    List.length_take]
  omega

/-- Helper: the window on a cons path starts with the path's head. -/
theorem refWindowTotal_cons (p : Waypoint) (rest : List Waypoint) (m : ℕ) :
    refWindowTotal (p :: rest) (m + 1) =
      p :: (rest.take m ++
        List.replicate ((m + 1) - (p :: rest.take m).length)
          ((p :: rest.take m).getLastD defaultWp)) := by
  unfold refWindowTotal
  rw [List.take_succ_cons, List.cons_append]

/-- C2: the cost loop of `build_problem` runs over the step indices
`t = 0 .. N-1` — `N` of them — and adds at each the speed-shaping summand
`gain.speed * target_speed / t`.  Index `0` is among them whenever
`N ≥ 2`, and there the divisor `(t : ℝ)` is `0`: the division is
unguarded. -/
theorem C2_theorem (N : ℕ) (h : 2 ≤ N) :
    (buildProblemStepIndices N).length = N ∧
    0 ∈ buildProblemStepIndices N ∧
    (∀ g s : ℝ, speedShapingTerm g s 0 ∈ speedShapingTerms g s N) ∧
    (∀ g s : ℝ, speedShapingTerm g s 0 = g * s / ((0 : ℕ) : ℝ)) ∧
    ((0 : ℕ) : ℝ) = 0 := by
  have h0 : 0 ∈ buildProblemStepIndices N := List.mem_range.mpr (by omega)
  refine ⟨List.length_range N, h0, ?_, fun g s => rfl, by norm_num⟩
  intro g s
  exact List.mem_map_of_mem _ h0

/-- C2 witness: at the default horizon `N = 11`, step `0` is in the loop
and its speed-shaping divisor is `0`. -/
theorem C2_witness :
    (buildProblemStepIndices 11).length = 11 ∧
    0 ∈ buildProblemStepIndices 11 ∧
    speedShapingTerm 1 1 0 ∈ speedShapingTerms 1 1 11 ∧
    speedShapingTerm 1 1 0 = 1 * 1 / ((0 : ℕ) : ℝ) := by
  obtain ⟨a, b, c, d, _⟩ := C2_theorem 11 (by norm_num)
  exact ⟨a, b, c 1 1, d 1 1⟩

/-- C3: for a valid configuration (`N ≥ 2`, `WP_N ≥ 1`) and nonempty
selected path, the per-tick parameter vector is exactly the concatenation
`[gain(8), ego(4), social vehicles, reference points, impatience,
target_speed]`, and its length equals the schema dimension
`z0_dimensions = 8 + 4 + 4·SV_N + 3·WP_N + 2` that `build_problem`
parses. -/
theorem C3_theorem (gain : Gain) (N SV_N WP_N : ℕ) (ego : EgoObs)
    (neighbors : List SocialVehicle) (p : Waypoint) (rest : List Waypoint)
    (impatience : ℕ) (hN : 2 ≤ N) (hWP : 1 ≤ WP_N) :
    plannerParams gain SV_N WP_N ego neighbors (p :: rest) impatience =
      some (gain.toList ++ egoParams ego ++ encodeSV SV_N ego.pos neighbors ++
        wpsParams (refWindowTotal (p :: rest) WP_N) ++
        [(impatience : ℝ), p.speed_limit]) ∧
    (gain.toList ++ egoParams ego ++ encodeSV SV_N ego.pos neighbors ++
      wpsParams (refWindowTotal (p :: rest) WP_N) ++
      [(impatience : ℝ), p.speed_limit]).length = z0Dimensions SV_N WP_N ∧
    z0Dimensions SV_N WP_N = 8 + 4 + 4 * SV_N + 3 * WP_N + 2 := by
  obtain ⟨m, rfl⟩ : ∃ m, WP_N = m + 1 := ⟨WP_N - 1, by omega⟩
  refine ⟨?_, ?_, z0Dimensions_eq SV_N (m + 1)⟩
  · unfold plannerParams
    rw [encodeRefWindow_eq p rest (m + 1) hWP, refWindowTotal_cons]
  · simp only [List.length_append, wpsParams_length, refWindowTotal_length,
      encodeSV_length, z0Dimensions_eq, Gain.toList, egoParams,
      List.length_cons, List.length_nil]
    ring

/-- C3 witness: a concrete tick with `N = 11`, `SV_N = 0`, `WP_N = 1`, one
waypoint, and no neighbors has the full conclusion, in particular parameter
length `8 + 4 + 0 + 3 + 2`. -/
theorem C3_witness :
    plannerParams ⟨1, 1, 1, 1, 1, 1, 1, 1⟩ 0 1 ⟨(0, 0), 0, 0⟩ [] [⟨(0, 0), 0, 7⟩] 0 =
      some ((Gain.toList ⟨1, 1, 1, 1, 1, 1, 1, 1⟩) ++ egoParams ⟨(0, 0), 0, 0⟩ ++
        encodeSV 0 (0, 0) [] ++ wpsParams (refWindowTotal [⟨(0, 0), 0, 7⟩] 1) ++
        [((0 : ℕ) : ℝ), (7 : ℝ)]) ∧
    ((Gain.toList ⟨1, 1, 1, 1, 1, 1, 1, 1⟩) ++ egoParams ⟨(0, 0), 0, 0⟩ ++
      encodeSV 0 (0, 0) [] ++ wpsParams (refWindowTotal [⟨(0, 0), 0, 7⟩] 1) ++
      [((0 : ℕ) : ℝ), (7 : ℝ)]).length = z0Dimensions 0 1 ∧
    z0Dimensions 0 1 = 8 + 4 + 4 * 0 + 3 * 1 + 2 :=
  C3_theorem ⟨1, 1, 1, 1, 1, 1, 1, 1⟩ 11 0 1 ⟨(0, 0), 0, 0⟩ [] ⟨(0, 0), 0, 7⟩ [] 0
    (by norm_num) (by norm_num)

/-- C6: on a nonempty selected path and `WP_N ≥ 1`, the encoded reference
block is the first `min(k, WP_N)` path points followed by the last taken
point repeated up to length exactly `WP_N`. -/
theorem C6_theorem (p : Waypoint) (rest : List Waypoint) (WP_N : ℕ)
    (h : 1 ≤ WP_N) :
    encodeRefWindow (p :: rest) WP_N = some (refWindowTotal (p :: rest) WP_N) ∧
    refWindowTotal (p :: rest) WP_N =
      (p :: rest).take WP_N ++
        List.replicate (WP_N - min WP_N (p :: rest).length)
          (((p :: rest).take WP_N).getLastD defaultWp) ∧
    (refWindowTotal (p :: rest) WP_N).length = WP_N := by
  refine ⟨encodeRefWindow_eq p rest WP_N h, ?_, refWindowTotal_length _ _⟩
  simp [refWindowTotal, List.length_take]

/-- C6 witness: a path with exactly one point and `WP_N = 15` encodes to
that single point repeated 15 times. -/
theorem C6_witness :
    encodeRefWindow [(⟨(0, 0), 0, 0⟩ : Waypoint)] 15 =
      some (List.replicate 15 (⟨(0, 0), 0, 0⟩ : Waypoint)) := by
  have h := (C6_theorem ⟨(0, 0), 0, 0⟩ [] 15 (by norm_num)).1
  rw [h]
  simp [refWindowTotal]

/-- C7: when the solver reports failure, the tick emits no trajectory, the
planner session is reinitialized (its epoch advances), and the warm start
is cleared, so the next solve is invoked with no initial guess. -/
theorem C7_theorem (st : PolicyState) (ego : EgoObs) (code : ℕ) (ts : ℝ) :
    (actUpdate st ego (.err code) ts).2 = none ∧
    (actUpdate st ego (.err code) ts).1.prevSolution = none ∧
    (actUpdate st ego (.err code) ts).1.plannerEpoch = st.plannerEpoch + 1 ∧
    solveInitialGuess (actUpdate st ego (.err code) ts).1 = none :=
  ⟨rfl, rfl, rfl, rfl⟩

/-- C10: the waypoint windowing requires a nonempty selected path: on the
empty path the `wps[-1]` access has no value and the tick cannot build its
parameters, while on any nonempty path (with `WP_N ≥ 1`) it succeeds. -/
theorem C10_theorem (WP_N : ℕ) :
    encodeRefWindow [] WP_N = none ∧
    (∀ (p : Waypoint) (rest : List Waypoint), 1 ≤ WP_N →
      (encodeRefWindow (p :: rest) WP_N).isSome = true) := by
  constructor
  · simp [encodeRefWindow]
  · intro p rest h
    rw [encodeRefWindow_eq p rest WP_N h]
    rfl

/-- Helper: the distance comparison is transitive. -/
theorem svLe_trans (egoPos : ℝ × ℝ) (a b c : SocialVehicle) :
    svLe egoPos a b → svLe egoPos b c → svLe egoPos a c := by
  simp only [svLe, decide_eq_true_eq]
  exact le_trans

/-- Helper: the distance comparison is total. -/
theorem svLe_total (egoPos : ℝ × ℝ) (a b : SocialVehicle) :
    svLe egoPos a b || svLe egoPos b a := by
  simp only [svLe, Bool.or_eq_true, decide_eq_true_eq]
  exact le_total _ _

/-- Helper: every selected social vehicle is at most as far from the ego as
every unselected one, because the selection is a prefix of the
distance-sorted list. -/
theorem selectedSVs_nearest (SV_N : ℕ) (egoPos : ℝ × ℝ)
    (neighbors : List SocialVehicle) :
    ∀ a ∈ selectedSVs SV_N egoPos neighbors,
      ∀ b ∈ (sortByDist egoPos neighbors).drop SV_N,
        svDist egoPos a ≤ svDist egoPos b := by
  have hpw : List.Pairwise (fun a b => svLe egoPos a b = true)
      (sortByDist egoPos neighbors) :=
    List.sorted_mergeSort (svLe_trans egoPos) (svLe_total egoPos) neighbors
  rw [← List.take_append_drop SV_N (sortByDist egoPos neighbors)] at hpw
  have h3 := (List.pairwise_append.mp hpw).2.2
  intro a ha b hb
  have := h3 a ha b hb
  simpa [svLe, decide_eq_true_eq] using this

/-- C8: the social-vehicle block of the parameter vector.  With `SV_N = 0`
it is empty; with `SV_N > 0` and no neighbors it is `SV_N` placeholders at
`(ego.x + 100000, ego.y + 100000)` with zero heading and speed; otherwise
it encodes the `SV_N` distance-sorted nearest neighbors (a permutation of
a prefix-sorted ordering, every selected one at most as far as every
dropped one), padded by repeating the last selected.  In every case it
flattens to `4 * SV_N` numbers. -/
theorem C8_theorem (SV_N : ℕ) (egoPos : ℝ × ℝ) (neighbors : List SocialVehicle) :
    (SV_N = 0 → encodeSV SV_N egoPos neighbors = []) ∧
    (SV_N ≠ 0 → neighbors = [] →
      encodeSV SV_N egoPos neighbors =
        (List.replicate SV_N [egoPos.1 + 100000, egoPos.2 + 100000, (0:ℝ), 0]).flatten) ∧
    (SV_N ≠ 0 → neighbors ≠ [] →
      List.Perm (sortByDist egoPos neighbors) neighbors ∧
      (∀ a ∈ selectedSVs SV_N egoPos neighbors,
        ∀ b ∈ (sortByDist egoPos neighbors).drop SV_N,
          svDist egoPos a ≤ svDist egoPos b) ∧
      encodeSV SV_N egoPos neighbors =
        (paddedSVs SV_N egoPos neighbors).flatMap svParamsOf) ∧
    (encodeSV SV_N egoPos neighbors).length = 4 * SV_N := by
  refine ⟨?_, ?_, ?_, encodeSV_length SV_N egoPos neighbors⟩
  · intro h
    simp [encodeSV, h]
  · intro h hn
    subst hn
    simp [encodeSV, h]
  · intro h hn
    refine ⟨List.mergeSort_perm neighbors (svLe egoPos),
      selectedSVs_nearest SV_N egoPos neighbors, ?_⟩
    unfold encodeSV
    rw [if_neg h, if_neg (fun hh => hn (List.length_eq_zero.mp hh))]

/-- C8 witness: with `SV_N = 2`, no neighbors and ego at the origin the
block is two placeholders; with `SV_N = 1` and one neighbor at `(3, 4)`
heading `0` speed `2` the block is that neighbor's four parameters; the
first block has length `4 * 2`. -/
theorem C8_witness :
    encodeSV 2 (0, 0) [] =
      (List.replicate 2 [(0 : ℝ) + 100000, (0 : ℝ) + 100000, (0 : ℝ), 0]).flatten ∧
    encodeSV 1 (0, 0) [⟨(3, 4), 0, 2⟩] = [3, 4, 0 + Real.pi * 0.5, 2] ∧
    (encodeSV 2 (0, 0) []).length = 4 * 2 := by
  refine ⟨(C8_theorem 2 (0, 0) []).2.1 (by norm_num) rfl, ?_,
    (C8_theorem 2 (0, 0) []).2.2.2⟩
  have h := ((C8_theorem 1 (0, 0) [⟨(3, 4), 0, 2⟩]).2.2.1 (by norm_num)
    (List.cons_ne_nil _ _)).2.2
  rw [h]
  simp [paddedSVs, selectedSVs, sortByDist, svParamsOf]

/-- Helper: `stride2` steps over cons pairs. -/
theorem stride2_cons_cons (a b : ℝ) (rest : List ℝ) :
    stride2 (a :: b :: rest) = a :: stride2 rest := rfl

/-- Helper: the decoded pairing consumes the flat list two at a time. -/
theorem actPairs_cons_cons (a b : ℝ) (rest : List ℝ) :
    actPairs (a :: b :: rest) = U.mk a b :: actPairs rest := by
  cases rest with
  | nil => rfl
  | cons c rest' => rfl

/-- Helper: the indexed pairing of `build_problem` consumes the flat list
two at a time. -/
theorem buildPairs_cons_cons (a b : ℝ) (u : List ℝ) (N : ℕ) :
    buildPairs (a :: b :: u) (N + 1) = U.mk a b :: buildPairs u N := by
  unfold buildPairs
  rw [List.range_succ_eq_map, List.map_cons, List.map_map]
  congr 1

/-- Helper: on a flat control vector of length `2 * N`, the indexed pairing
of `build_problem` and the strided pairing of `act` produce the same
control sequence. -/
theorem pairsAgree (N : ℕ) : ∀ u : List ℝ, u.length = 2 * N →
    buildPairs u N = actPairs u := by
  induction N with
  | zero =>
      intro u h
      have hu : u = [] := List.length_eq_zero.mp (by omega)
      subst hu
      rfl
  | succ n ih =>
      intro u h
      cases u with
      | nil =>
          simp at h
      | cons a u' =>
          cases u' with
          | nil =>
              simp at h
              omega
          | cons b u'' =>
              have hlen : u''.length = 2 * n := by
                simp at h
                omega
              rw [buildPairs_cons_cons, actPairs_cons_cons, ih u'' hlen]

/-- C9: the symbolic ego rollout of `build_problem` and the numeric
decoding of `act` both iterate the same `VehicleModel.step` with the same
timestep, so on the same initial state and the same flat control vector of
length `2 * N` they produce identical state trajectories; the emitted
`[xs, ys, headings, speeds]` are exactly the fields of the cost rollout's
states (headings shifted by `-π/2` as in the source). -/
theorem C9_theorem (ego : VehicleModel) (u : List ℝ) (N : ℕ) (ts : ℝ)
    (h : u.length = 2 * N) :
    buildRolloutStates ego u N ts = decodeStates ego u ts ∧
    decodeTraj ego u ts =
      ((buildRolloutStates ego u N ts).map (fun s => s.x),
       (buildRolloutStates ego u N ts).map (fun s => s.y),
       (buildRolloutStates ego u N ts).map (fun s => s.theta - Real.pi * 0.5),
       (buildRolloutStates ego u N ts).map (fun s => s.speed)) := by
  have hp : buildPairs u N = actPairs u := pairsAgree N u h
  constructor
  · unfold buildRolloutStates decodeStates
    rw [hp]
  · unfold decodeTraj decodeStates buildRolloutStates
    rw [hp]

/-- C9 witness: a concrete horizon-2 control vector decodes through the
same states the cost rollout visits. -/
theorem C9_witness :
    ([1, 0, 1, 0] : List ℝ).length = 2 * 2 ∧
    buildRolloutStates ⟨0, 0, 0, 0⟩ [1, 0, 1, 0] 2 1 =
      decodeStates ⟨0, 0, 0, 0⟩ [1, 0, 1, 0] 1 := by
  have h : ([1, 0, 1, 0] : List ℝ).length = 2 * 2 := by simp
  exact ⟨h, (C9_theorem ⟨0, 0, 0, 0⟩ [1, 0, 1, 0] 2 1 h).1⟩

/-- C10 witness: with `WP_N = 15`, the empty path yields no value and a
one-point path yields a value. -/
theorem C10_witness :
    encodeRefWindow [] 15 = none ∧
    (encodeRefWindow [(⟨(1, 2), 0, 5⟩ : Waypoint)] 15).isSome = true :=
  ⟨(C10_theorem 15).1, (C10_theorem 15).2 ⟨(1, 2), 0, 5⟩ [] (by norm_num)⟩

end
